import Mathlib

/-!
Shallow embedding of `src/watermark.py` (photo_watermark).

Paths are modelled as lists of components (`List String`); Python `int` as
`Int` (or `Nat` where the source value is a count); fallible operations
return `Option`/`Except`.  External library calls (PIL image decode/encode,
`ImageColor.getrgb`, font loading) are passed in as explicit data or
function parameters, matching the spec's "external collaborators" boundary.
-/

namespace PhotoWatermark

/-- A calendar datetime, as produced by Python `datetime.strptime` /
`datetime.fromtimestamp`. -/
structure DateTime where
  year : Nat
  month : Nat
  day : Nat
  hour : Nat
  minute : Nat
  second : Nat
deriving DecidableEq, Repr

/-! ### Character-list primitives

Structural models of the string operations the source leans on
(`str.split`, digit runs, `str.lower`, `str.rfind`), so that every
definition evaluates by kernel reduction. -/

/-- Accumulator loop for `splitOnChar`. -/
def splitOnCharGo (c : Char) : List Char → List Char → List (List Char)
  | [], acc => [acc.reverse]
  | x :: xs, acc =>
    if x = c then acc.reverse :: splitOnCharGo c xs []
    else splitOnCharGo c xs (x :: acc)

/-- Split on every occurrence of `c`, keeping empty fields
(`"a::b".split(":") == ["a", "", "b"]`). -/
def splitOnChar (c : Char) (cs : List Char) : List (List Char) :=
  splitOnCharGo c cs []

/-- Numeric value of a decimal digit character. -/
def digitVal (ch : Char) : Nat := ch.toNat - 48

/-- The number denoted by a run of decimal digits. -/
def digitsToNat (cs : List Char) : Nat :=
  cs.foldl (fun n ch => n * 10 + digitVal ch) 0

/-- ASCII lowering of one character (`str.lower` on the ASCII range, which
covers every recognized extension). -/
def toLowerChar (ch : Char) : Char :=
  if 'A' ≤ ch ∧ ch ≤ 'Z' then Char.ofNat (ch.toNat + 32) else ch

/-- `str.lower()`. -/
def lowerStr (s : String) : String := ⟨s.data.map toLowerChar⟩

/-! ### Date parsing (`datetime.strptime` on the four formats used) -/

/-- Parse a run of digits as a bounded number: the whole component must be
digits, at most `maxLen` of them (strptime field widths), with the value in
`[lo, hi]` (strptime/datetime range validation). -/
def parseNum (lo hi maxLen : Nat) (cs : List Char) : Option Nat :=
  if cs.length = 0 ∨ maxLen < cs.length ∨ ¬ (cs.all Char.isDigit) then none
  else
    let n := digitsToNat cs
    if lo ≤ n ∧ n ≤ hi then some n else none

def isLeap (y : Nat) : Bool :=
  (y % 4 == 0 && y % 100 != 0) || y % 400 == 0

def daysInMonth (y m : Nat) : Nat :=
  if m = 2 then (if isLeap y then 29 else 28)
  else if m = 4 ∨ m = 6 ∨ m = 9 ∨ m = 11 then 30
  else 31

/-- Parse a `YYYYsMMsDD` date part with separator `sep` (`:` or `-`),
validating ranges the way `datetime.strptime` does. -/
def parseDatePart (sep : Char) (cs : List Char) : Option (Nat × Nat × Nat) :=
  match splitOnChar sep cs with
  | [ys, ms, ds] =>
    match parseNum 1 9999 4 ys, parseNum 1 12 2 ms, parseNum 1 31 2 ds with
    | some y, some m, some d =>
      if d ≤ daysInMonth y m then some (y, m, d) else none
    | _, _, _ => none
  | _ => none

/-- Parse an `HH:MM:SS` time part. -/
def parseTimePart (cs : List Char) : Option (Nat × Nat × Nat) :=
  match splitOnChar ':' cs with
  | [hs, ms, ss] =>
    match parseNum 0 23 2 hs, parseNum 0 59 2 ms, parseNum 0 59 2 ss with
    | some h, some mi, some se => some (h, mi, se)
    | _, _, _ => none
  | _ => none

/-- `datetime.strptime value fmt` for the four formats the source uses:
`sep` is the date separator and `withTime` says whether the format carries
an `HH:MM:SS` part.  The whole string must be consumed. -/
def strptime (sep : Char) (withTime : Bool) (s : String) : Option DateTime :=
  if withTime then
    match splitOnChar ' ' s.data with
    | [dpart, tpart] =>
      match parseDatePart sep dpart, parseTimePart tpart with
      | some (y, m, d), some (h, mi, se) => some ⟨y, m, d, h, mi, se⟩
      | _, _ => none
    | _ => none
  else
    match parseDatePart sep s.data with
    | some (y, m, d) => some ⟨y, m, d, 0, 0, 0⟩
    | none => none

/-- The inner format loop of `get_exif_datetime`: try
`"%Y:%m:%d %H:%M:%S"`, `"%Y-%m-%d %H:%M:%S"`, `"%Y:%m:%d"`, `"%Y-%m-%d"`
in order; the first successful parse wins. -/
def try_formats (v : String) : Option DateTime :=
  (strptime ':' true v).orElse fun _ =>
    (strptime '-' true v).orElse fun _ =>
      (strptime ':' false v).orElse fun _ =>
        strptime '-' false v

/-- Lookup in the EXIF tag-name map (`tag_map.get(key)`). -/
def lookupTag (tags : List (String × String)) (k : String) : Option String :=
  (tags.find? (fun p => p.1 = k)).map (·.2)

/-- The ordered datetime tag keys the source inspects. -/
def exifKeys : List String := ["DateTimeOriginal", "DateTimeDigitized", "DateTime"]

/-- The key loop of `get_exif_datetime`: for each key in order, a missing or
empty (falsy) value is skipped; a present value that fails every format is
also skipped (the `for fmt` loop falls through to the next key). -/
def exif_datetime_go (tags : List (String × String)) : List String → Option DateTime
  | [] => none
  | k :: ks =>
    match lookupTag tags k with
    | none => exif_datetime_go tags ks
    | some v =>
      if v = "" then exif_datetime_go tags ks
      else
        match try_formats v with
        | some d => some d
        | none => exif_datetime_go tags ks

/-- `get_exif_datetime`: extract a datetime from the image's EXIF tag map,
or `none`.  (The source's blanket `except: return None` makes the function
total; the embedding is total by construction.) -/
def get_exif_datetime (tags : List (String × String)) : Option DateTime :=
  exif_datetime_go tags exifKeys

/-! ### Date formatting (`date.strftime("%Y-%m-%d")`) -/

/-- The ASCII digit character for `n % 10`. -/
def digitChar (n : Nat) : Char := Char.ofNat (48 + n % 10)

/-- Four zero-padded decimal digits (strftime `%Y` on the valid
`datetime` year range 1–9999). -/
def pad4 (n : Nat) : List Char :=
  [digitChar (n / 1000), digitChar (n / 100), digitChar (n / 10), digitChar n]

/-- Two zero-padded decimal digits (strftime `%m` / `%d`). -/
def pad2 (n : Nat) : List Char :=
  [digitChar (n / 10), digitChar n]

/-- `format_date`: render a date as `"YYYY-MM-DD"`
(`date.strftime("%Y-%m-%d")`). -/
def format_date (d : DateTime) : String :=
  ⟨pad4 d.year ++ '-' :: (pad2 d.month ++ '-' :: pad2 d.day)⟩

/-- Checks the `"YYYY-MM-DD"` display shape: exactly ten characters,
digits at
positions 0–3, 5–6, 8–9 and dashes at positions 4 and 7. -/
def isYMDChars : List Char → Bool
  | [y1, y2, y3, y4, c1, m1, m2, c2, d1, d2] =>
    y1.isDigit && y2.isDigit && y3.isDigit && y4.isDigit && c1 = '-' &&
      m1.isDigit && m2.isDigit && c2 = '-' && d1.isDigit && d2.isDigit
  | _ => false

def isYMD (s : String) : Bool := isYMDChars s.data

/-- The date-resolution step of `process_image_file`
(lines 119–121): EXIF datetime if found, else the file's mtime. -/
def resolve_date (tags : List (String × String)) (mtime : DateTime) : DateTime :=
  (get_exif_datetime tags).getD mtime

/-- The watermark text: the resolved date rendered for display. -/
def resolved_text (tags : List (String × String)) (mtime : DateTime) : String :=
  format_date (resolve_date tags mtime)

/-! ### Path utilities (`pathlib` semantics on file names and paths) -/

/-- Accumulator loop for `rfindIdx`: remembers the latest index at which
`c` was seen. -/
def rfindIdxGo (c : Char) : List Char → Nat → Option Nat → Option Nat
  | [], _, best => best
  | x :: xs, i, best =>
    rfindIdxGo c xs (i + 1) (if x = c then some i else best)

/-- Index of the last occurrence of `c` in `cs` (`str.rfind(c)`), or
`none`. -/
def rfindIdx (cs : List Char) (c : Char) : Option Nat :=
  rfindIdxGo c cs 0 none

/-- `pathlib` suffix of a file name: the part from the last dot, provided
that dot is neither the first nor the last character, else `""`. -/
def path_suffix (name : String) : String :=
  match rfindIdx name.data '.' with
  | some i => if 0 < i ∧ i < name.data.length - 1 then ⟨name.data.drop i⟩ else ""
  | none => ""

/-- `pathlib` stem of a file name: the name with its suffix removed. -/
def path_stem (name : String) : String :=
  match rfindIdx name.data '.' with
  | some i => if 0 < i ∧ i < name.data.length - 1 then ⟨name.data.take i⟩ else name
  | none => name

/-- `Path.name` for a path given as a component list. -/
def path_name (p : List String) : String := (p.getLast?).getD ""

/-- `find_output_dir`: the output root.  `isFile` is the result of the
`input_path.is_file()` filesystem query. -/
def find_output_dir (input_path : List String) (isFile : Bool) : List String :=
  let base_dir := if isFile then input_path.dropLast else input_path
  base_dir ++ [path_name base_dir ++ "_watermark"]

/-! ### Position calculator -/

/-- `compute_text_position`: map (image size, text size, anchor, margin) to
pixel coordinates.  Python `//` is floor division, hence `Int.fdiv`. -/
def compute_text_position (img_size : Int × Int) (text_size : Int × Int)
    (position : String) (margin : Int) : Int × Int :=
  let img_w := img_size.1
  let img_h := img_size.2
  let text_w := text_size.1
  let text_h := text_size.2
  if position = "top-left" then (margin, margin)
  else if position = "top-right" then (img_w - text_w - margin, margin)
  else if position = "center" then
    (Int.fdiv (img_w - text_w) 2, Int.fdiv (img_h - text_h) 2)
  else if position = "bottom-left" then (margin, img_h - text_h - margin)
  else (img_w - text_w - margin, img_h - text_h - margin)

/-! ### Compositor (`draw_watermark`) -/

/-- The two `draw.text` calls `draw_watermark` issues on the overlay:
where each pass is drawn and with which RGBA fill. -/
structure DrawCalls where
  shadow_pos : Int × Int
  shadow_fill : Int × Int × Int × Int
  primary_pos : Int × Int
  primary_fill : Int × Int × Int × Int
deriving DecidableEq, Repr

/-- `draw_watermark`, reduced to the draw parameters it computes.  `getrgb`
stands for the external `ImageColor.getrgb`, returning `none` where the
library raises; `img` and text measurement results are passed in since
decode and font metrics are external. -/
def draw_watermark (img_size : Int × Int) (text_size : Int × Int)
    (getrgb : String → Option (Int × Int × Int)) (color : String)
    (opacity : Int) (position : String) : DrawCalls :=
  let xy := compute_text_position img_size text_size position 16
  let fill_color := (getrgb color).getD (255, 255, 255)
  let fill := (fill_color.1, fill_color.2.1, fill_color.2.2,
    max 0 (min 255 opacity))
  let shadow_offset : Int := 2
  { shadow_pos := (xy.1 + shadow_offset, xy.2 + shadow_offset)
    shadow_fill := (0, 0, 0, min 255 opacity)
    primary_pos := xy
    primary_fill := fill }

/-! ### File processing -/

/-- `is_image_file`: recognized extensions, case-insensitive. -/
def is_image_file (name : String) : Bool :=
  [".jpg", ".jpeg", ".png", ".bmp", ".tiff", ".webp"].contains
    (lowerStr (path_suffix name))

/-- Output file name (line 128):
`stem + "_wm" + (".png" if ext == ".png" else ".jpg")`
where `ext = input_file.suffix.lower()`. -/
def out_name (input_name : String) : String :=
  path_stem input_name ++ "_wm" ++
    (if lowerStr (path_suffix input_name) = ".png" then ".png" else ".jpg")

/-- One input file as `process_image_file` sees it: its name, the result of
the external decode (EXIF tags and pixel data are opaque beyond the tags),
its filesystem mtime, and the outcome of the external encode/write
(`none` = write succeeds). -/
structure FileEntry where
  name : String
  decode : Except String (List (String × String))
  mtime : DateTime
  write_err : Option String
deriving Repr

/-- The `try` body of `process_image_file`: decode, resolve the date,
compose, and write `out_name` into `output_dir`; any step's failure is the
body's failure. -/
def process_body (f : FileEntry) (output_dir : List String) :
    Except String (List String) :=
  match f.decode with
  | Except.error e => Except.error e
  | Except.ok tags =>
    let _text := resolved_text tags f.mtime
    match f.write_err with
    | some e => Except.error e
    | none => Except.ok (output_dir ++ [out_name f.name])

/-- `process_image_file`: run the body; on success return the written
path; on any exception log `"Failed to process <path>: <error>"` to the
diagnostic stream and return `none`.  The second component is the list of
diagnostic lines printed. -/
def process_image_file (f : FileEntry) (output_dir : List String) :
    Option (List String) × List String :=
  match process_body f output_dir with
  | Except.ok p => (some p, [])
  | Except.error e => (none, ["Failed to process " ++ f.name ++ ": " ++ e])

/-! ### Batch walk (`main`, directory mode) -/

/-- One file met by `os.walk`: its directory's path relative to the input
root, and its file name. -/
structure WalkFile where
  rel : List String
  name : String
deriving DecidableEq, Repr

/-- One iteration of the walk loop: skip unrecognized extensions, process
recognized ones into the mirrored directory, bump the count on success and
collect any diagnostic lines. -/
def batch_step (outputRoot : List String) (entry : WalkFile → FileEntry)
    (acc : Nat × List String) (f : WalkFile) : Nat × List String :=
  if is_image_file f.name then
    match process_image_file (entry f) (outputRoot ++ f.rel) with
    | (some _, logs) => (acc.1 + 1, acc.2 ++ logs)
    | (none, logs) => (acc.1, acc.2 ++ logs)
  else acc

/-- Directory mode of `main` (lines 160–170): every walked file with a
recognized extension is processed into `outputRoot ++ rel`; the result is
the processed count and the diagnostic lines.  `entry` is the filesystem
view of each walked file. -/
def run_batch (files : List WalkFile) (outputRoot : List String)
    (entry : WalkFile → FileEntry) : Nat × List String :=
  files.foldl (batch_step outputRoot entry) (0, [])

/-- Whether a walked file ends up counted as processed. -/
def counts_as_processed (outputRoot : List String)
    (entry : WalkFile → FileEntry) (f : WalkFile) : Bool :=
  is_image_file f.name &&
    (process_image_file (entry f) (outputRoot ++ f.rel)).1.isSome

/-- The output paths directory mode derives for the eligible files: the
relative path is mirrored under the output root and the renamed file is
written there. -/
def walk_output_paths (files : List WalkFile) (outputRoot : List String) :
    List (List String) :=
  (files.filter fun f => is_image_file f.name).map
    fun f => outputRoot ++ f.rel ++ [out_name f.name]

/-! ## Helper lemmas -/

theorem digitChar_isDigit (n : Nat) : (digitChar n).isDigit = true := by
  have h : n % 10 < 10 := Nat.mod_lt _ (by decide)
  unfold digitChar
  generalize n % 10 = k at h
  interval_cases k <;> decide

theorem batch_foldl_count (root : List String) (entry : WalkFile → FileEntry)
    (files : List WalkFile) (acc : Nat × List String) :
    (files.foldl (batch_step root entry) acc).1 =
      acc.1 + files.countP (counts_as_processed root entry) := by
  induction files generalizing acc with
  | nil => simp
  | cons f fs ih =>
    rw [List.foldl_cons, ih, List.countP_cons]
    have hstep : (batch_step root entry acc f).1 =
        acc.1 + (if counts_as_processed root entry f then 1 else 0) := by
      unfold batch_step counts_as_processed
      by_cases himg : is_image_file f.name
      · rcases hpf : process_image_file (entry f) (root ++ f.rel) with ⟨res, logs⟩
        cases res <;> simp [himg]
      · simp [himg]
    rw [hstep]
    cases hcp : counts_as_processed root entry f
    all_goals simp
    all_goals omega

/-! ## Claims -/

/-- C6: for every image size `(W, H)`, text size `(w, h)` and margin 16,
`compute_text_position` returns exactly the five documented anchor
formulas — `(16, 16)`, `(W - w - 16, 16)`, floor-division center,
`(16, H - h - 16)`, `(W - w - 16, H - h - 16)` — and performs no clamping
against negative coordinates (at image 10×10 and text 100×100 the top-right
x coordinate is the negative value −106). -/
theorem c6_anchor_formulas (W H w h : Int) :
    compute_text_position (W, H) (w, h) "top-left" 16 = (16, 16) ∧
    compute_text_position (W, H) (w, h) "top-right" 16 = (W - w - 16, 16) ∧
    compute_text_position (W, H) (w, h) "center" 16 =
      (Int.fdiv (W - w) 2, Int.fdiv (H - h) 2) ∧
    compute_text_position (W, H) (w, h) "bottom-left" 16 = (16, H - h - 16) ∧
    compute_text_position (W, H) (w, h) "bottom-right" 16 =
      (W - w - 16, H - h - 16) ∧
    (compute_text_position (10, 10) (100, 100) "top-right" 16 = (-106, 16) ∧
      (-106 : Int) < 0) :=
  ⟨rfl, rfl, rfl, rfl, rfl, by decide⟩

/-- C10: `compute_text_position` is total over arbitrary position strings:
any anchor other than the four named ones — not only the literal
"bottom-right" — falls through to the bottom-right formula
`(W - w - margin, H - h - margin)`. -/
theorem c10_unrecognized_anchor_is_bottom_right (pos : String) (W H w h m : Int)
    (h1 : pos ≠ "top-left") (h2 : pos ≠ "top-right")
    (h3 : pos ≠ "center") (h4 : pos ≠ "bottom-left") :
    compute_text_position (W, H) (w, h) pos m = (W - w - m, H - h - m) := by
  simp [compute_text_position, h1, h2, h3, h4]

/-- Witness for C10 at the unrecognized anchor string "diagonal". -/
theorem c10_unrecognized_anchor_is_bottom_right_witness :
    compute_text_position (10, 20) (3, 4) "diagonal" 16 = (10 - 3 - 16, 20 - 4 - 16) :=
  c10_unrecognized_anchor_is_bottom_right "diagonal" 10 20 3 4 16
    (by decide) (by decide) (by decide) (by decide)

/-- C7: for every input file name, the output name is
`stem ++ "_wm" ++ (".png" if the lowercased extension is ".png" else ".jpg")`,
so it ends in `_wm.png` exactly when the source extension was `.png`
(case-insensitively) and in `_wm.jpg` for every other extension; concretely
`photo.PNG ↦ photo_wm.png` and `x.jpeg ↦ x_wm.jpg`. -/
theorem c7_output_filename (name : String) :
    out_name name =
      path_stem name ++
        (if lowerStr (path_suffix name) = ".png" then "_wm.png" else "_wm.jpg") ∧
    out_name "photo.PNG" = "photo_wm.png" ∧
    out_name "x.jpeg" = "x_wm.jpg" := by
  refine ⟨?_, by decide, by decide⟩
  unfold out_name
  by_cases hext : lowerStr (path_suffix name) = ".png"
  · rw [if_pos hext, if_pos hext, String.append_assoc]
    congr 1
  · rw [if_neg hext, if_neg hext, String.append_assoc]
    congr 1

/-- C9: whenever the color string fails to parse (the external
`ImageColor.getrgb` raises, modelled as returning `none`), `draw_watermark`
silently uses opaque white `(255, 255, 255)` as the fill color instead of
raising or rejecting the configuration. -/
theorem c9_unparseable_color_defaults_to_white (img text : Int × Int)
    (getrgb : String → Option (Int × Int × Int)) (color : String)
    (opacity : Int) (pos : String) (h : getrgb color = none) :
    (draw_watermark img text getrgb color opacity pos).primary_fill =
      (255, 255, 255, max 0 (min 255 opacity)) := by
  simp [draw_watermark, h]

/-- Witness for C9 at a concrete unparseable color string. -/
theorem c9_unparseable_color_defaults_to_white_witness :
    (draw_watermark (100, 100) (10, 10) (fun _ => none) "notacolor" 220
        "top-left").primary_fill =
      (255, 255, 255, max 0 (min 255 220)) :=
  c9_unparseable_color_defaults_to_white (100, 100) (10, 10) (fun _ => none)
    "notacolor" 220 "top-left" rfl

/-- C1 counterexample: for the directory input `home/photos`,
`find_output_dir` returns `home/photos/photos_watermark` — a child of the
input directory, not the sibling `home/photos_watermark` the claim
requires. -/
theorem c1_output_root_counterexample :
    find_output_dir ["home", "photos"] false =
      ["home", "photos", "photos_watermark"] ∧
    find_output_dir ["home", "photos"] false ≠ ["home", "photos_watermark"] := by
  decide

/-- C1 (amended): the output root is `base_dir/<base_dir.name>_watermark`
where `base_dir` is the input's parent for a file input and the input
itself for a directory input.  For a file input the output root sits in the
same directory as the file (its `dropLast` equals the input's); for a
directory input the output root is a child of the input directory —
contained inside it, not a sibling. -/
theorem c1_output_root (p : List String) :
    ((find_output_dir p true).dropLast = p.dropLast ∧
      find_output_dir p true = p.dropLast ++ [path_name p.dropLast ++ "_watermark"]) ∧
    (find_output_dir p false = p ++ [path_name p ++ "_watermark"] ∧
      (find_output_dir p false).take p.length = p) := by
  unfold find_output_dir
  refine ⟨⟨?_, rfl⟩, rfl, ?_⟩
  · simp
  · simp [List.take_left]

/-- C2 counterexample: at opacity −1 the shadow pass draws with alpha
`min 255 (−1) = −1`, while the clamped alpha `max 0 (min 255 (−1)) = 0` is
used only for the primary draw — so the shadow does not use the clamped
value and the effective shadow alpha lies outside `[0, 255]`. -/
theorem c2_opacity_clamp_counterexample :
    (draw_watermark (100, 100) (10, 10) (fun _ => none) "#FFFFFF" (-1)
        "bottom-right").shadow_fill = (0, 0, 0, -1) ∧
    (draw_watermark (100, 100) (10, 10) (fun _ => none) "#FFFFFF" (-1)
        "bottom-right").primary_fill = (255, 255, 255, 0) ∧
    max 0 (min 255 (-1 : Int)) = 0 ∧ (-1 : Int) ≠ 0 := by
  decide

/-- C2 (amended): the primary draw uses alpha `max 0 (min 255 opacity)`,
which always lies in `[0, 255]`; the shadow pass at offset `(+2, +2)` uses
`min 255 opacity`, clamped from above only, so the two alphas agree for
every opacity ≥ 0 but differ for negative opacity. -/
theorem c2_opacity_clamp (img text : Int × Int)
    (getrgb : String → Option (Int × Int × Int)) (color : String)
    (opacity : Int) (pos : String) :
    (draw_watermark img text getrgb color opacity pos).primary_fill.2.2.2 =
      max 0 (min 255 opacity) ∧
    0 ≤ (draw_watermark img text getrgb color opacity pos).primary_fill.2.2.2 ∧
    (draw_watermark img text getrgb color opacity pos).primary_fill.2.2.2 ≤ 255 ∧
    (draw_watermark img text getrgb color opacity pos).shadow_fill.2.2.2 =
      min 255 opacity ∧
    (draw_watermark img text getrgb color opacity pos).shadow_pos =
      ((draw_watermark img text getrgb color opacity pos).primary_pos.1 + 2,
        (draw_watermark img text getrgb color opacity pos).primary_pos.2 + 2) ∧
    (0 ≤ opacity →
      (draw_watermark img text getrgb color opacity pos).shadow_fill.2.2.2 =
        max 0 (min 255 opacity)) := by
  have hp : (draw_watermark img text getrgb color opacity pos).primary_fill.2.2.2 =
      max 0 (min 255 opacity) := by simp [draw_watermark]
  have hs : (draw_watermark img text getrgb color opacity pos).shadow_fill.2.2.2 =
      min 255 opacity := by simp [draw_watermark]
  refine ⟨hp, ?_, ?_, hs, by simp [draw_watermark], ?_⟩
  · rw [hp]
    omega
  · rw [hp]
    omega
  · intro hop
    rw [hs]
    omega

/-- C3: if any step of the per-file pipeline fails (decode, compose,
encode or write, surfaced as `process_body` returning an error),
`process_image_file` logs `"Failed to process <path>: <error>"` to the
diagnostic stream and returns `none` instead of raising; such a file
contributes nothing to the processed count, and removing it from a batch
leaves the count of every other file unchanged — the batch continues. -/
theorem c3_failure_logged_and_isolated (f : FileEntry) (out : List String)
    (e : String) (h : process_body f out = Except.error e) :
    process_image_file f out =
      (none, ["Failed to process " ++ f.name ++ ": " ++ e]) ∧
    ∀ (l1 l2 : List WalkFile) (root : List String)
      (entry : WalkFile → FileEntry) (w : WalkFile),
      entry w = f → root ++ w.rel = out →
      (run_batch (l1 ++ w :: l2) root entry).1 =
        (run_batch (l1 ++ l2) root entry).1 := by
  have hpf : process_image_file f out =
      (none, ["Failed to process " ++ f.name ++ ": " ++ e]) := by
    unfold process_image_file
    rw [h]
  refine ⟨hpf, ?_⟩
  intro l1 l2 root entry w hw hroot
  have hcp : counts_as_processed root entry w = false := by
    unfold counts_as_processed
    rw [hw, hroot, hpf]
    simp
  unfold run_batch
  rw [batch_foldl_count, batch_foldl_count, List.countP_append,
    List.countP_append, List.countP_cons, hcp]
  simp

/-- Witness for C3: a file whose decode fails with "boom" is logged and
skipped. -/
theorem c3_failure_logged_and_isolated_witness :
    process_image_file
        ⟨"bad.jpg", Except.error "boom", ⟨2020, 1, 1, 0, 0, 0⟩, none⟩ ["out"] =
      (none, ["Failed to process " ++ "bad.jpg" ++ ": " ++ "boom"]) :=
  (c3_failure_logged_and_isolated
    ⟨"bad.jpg", Except.error "boom", ⟨2020, 1, 1, 0, 0, 0⟩, none⟩
    ["out"] "boom" rfl).1

/-- C4: the date resolver takes the first present, non-empty value among
the ordered keys `DateTimeOriginal`, `DateTimeDigitized`, `DateTime` (here:
a parseable value under `DateTimeOriginal` decides the result whatever the
later keys hold); for a value it tries `"YYYY:MM:DD HH:MM:SS"` first, and
the later date-only formats only when the earlier ones fail (the value
`"2020:01:02"` falls through to the third format); in particular, with both
`DateTimeOriginal="2020:01:02 10:00:00"` and
`DateTime="2021:05:05 00:00:00"`, the resolved display date is
`"2020-01-02"`. -/
theorem c4_exif_key_and_format_precedence (tags : List (String × String))
    (v : String) (d : DateTime)
    (h1 : lookupTag tags "DateTimeOriginal" = some v) (h2 : v ≠ "")
    (h3 : try_formats v = some d) :
    get_exif_datetime tags = some d ∧
    (∀ (w : String) (d1 : DateTime),
      strptime ':' true w = some d1 → try_formats w = some d1) ∧
    try_formats "2020:01:02" = some ⟨2020, 1, 2, 0, 0, 0⟩ ∧
    get_exif_datetime
        [("DateTimeOriginal", "2020:01:02 10:00:00"),
          ("DateTime", "2021:05:05 00:00:00")] =
      some ⟨2020, 1, 2, 10, 0, 0⟩ ∧
    format_date ⟨2020, 1, 2, 10, 0, 0⟩ = "2020-01-02" := by
  refine ⟨?_, ?_, by decide, by decide, by decide⟩
  · simp [get_exif_datetime, exifKeys, exif_datetime_go, h1, h2, h3]
  · intro w d1 hw
    unfold try_formats
    rw [hw]
    rfl

/-- Witness for C4 at the spec's metadata-precedence example. -/
theorem c4_exif_key_and_format_precedence_witness :
    get_exif_datetime
        [("DateTimeOriginal", "2020:01:02 10:00:00"),
          ("DateTime", "2021:05:05 00:00:00")] =
      some ⟨2020, 1, 2, 10, 0, 0⟩ :=
  (c4_exif_key_and_format_precedence
    [("DateTimeOriginal", "2020:01:02 10:00:00"),
      ("DateTime", "2021:05:05 00:00:00")]
    "2020:01:02 10:00:00" ⟨2020, 1, 2, 10, 0, 0⟩
    (by decide) (by decide) (by decide)).1

/-- C5: date resolution is total (the embedding returns a value for every
tag map — the source's blanket exception handler returns `None` in Python);
when no metadata key yields a parseable date it falls back to the file's
last-modification timestamp, the displayed text then being the rendering of
that timestamp; and every resolved date is rendered as `"YYYY-MM-DD"` (ten
characters, four digit years, two digit months and days, dash-separated) —
concretely, mtime 2022-07-04 12:00:00 displays as `"2022-07-04"`. -/
theorem c5_fallback_and_display_format (tags : List (String × String))
    (mtime : DateTime) (h : get_exif_datetime tags = none) :
    resolve_date tags mtime = mtime ∧
    resolved_text tags mtime = format_date mtime ∧
    (∀ d : DateTime, isYMD (format_date d) = true) ∧
    format_date ⟨2022, 7, 4, 12, 0, 0⟩ = "2022-07-04" := by
  refine ⟨by simp [resolve_date, h], by simp [resolved_text, resolve_date, h],
    ?_, by decide⟩
  intro d
  show isYMDChars _ = true
  simp [format_date, pad4, pad2, isYMDChars, digitChar_isDigit]

/-- Witness for C5: tags whose only value parses under no format fall back
to the mtime of the spec's fallback example. -/
theorem c5_fallback_and_display_format_witness :
    resolve_date [("DateTimeOriginal", "garbage")] ⟨2022, 7, 4, 12, 0, 0⟩ =
      ⟨2022, 7, 4, 12, 0, 0⟩ :=
  (c5_fallback_and_display_format [("DateTimeOriginal", "garbage")]
    ⟨2022, 7, 4, 12, 0, 0⟩ (by decide)).1

/-- C8: in directory mode every walked file with a recognized extension is
processed into the directory obtained by mirroring its relative path under
the output root (its derived output path appears among the batch's output
paths); concretely, for input directory `input` holding `a.jpg` and
`sub/b.png`, the output root `input/input_watermark` receives `a_wm.jpg`
and `sub/b_wm.png`. -/
theorem c8_relative_structure_mirrored (files : List WalkFile)
    (root : List String) (f : WalkFile) (hf : f ∈ files)
    (himg : is_image_file f.name = true) :
    (root ++ f.rel ++ [out_name f.name]) ∈ walk_output_paths files root ∧
    walk_output_paths [⟨[], "a.jpg"⟩, ⟨["sub"], "b.png"⟩]
        (find_output_dir ["input"] false) =
      [["input", "input_watermark", "a_wm.jpg"],
        ["input", "input_watermark", "sub", "b_wm.png"]] := by
  refine ⟨?_, by decide⟩
  unfold walk_output_paths
  exact List.mem_map.mpr ⟨f, List.mem_filter.mpr ⟨hf, himg⟩, rfl⟩

/-- Witness for C8 at the spec's two-file example. -/
theorem c8_relative_structure_mirrored_witness :
    (["input", "input_watermark"] ++ ["sub"] ++ [out_name "b.png"]) ∈
      walk_output_paths [⟨[], "a.jpg"⟩, ⟨["sub"], "b.png"⟩]
        ["input", "input_watermark"] :=
  (c8_relative_structure_mirrored [⟨[], "a.jpg"⟩, ⟨["sub"], "b.png"⟩]
    ["input", "input_watermark"] ⟨["sub"], "b.png"⟩
    (by decide) (by decide)).1

end PhotoWatermark
